import Mathlib

/-!
Verification of the seeding / upsert backend (`src/main.py`, `src/schemas.py`).

The service is a set of request handlers over a document store holding four
collections (`coursecategory`, `staff`, `contactmessage`, `subscription`).
We embed the store state as a Lean structure, the database handle as a
three-way state (absent, connected, or raising on every operation — the
latter models a store whose operations throw, which the handlers catch and
map to HTTP 500), and each handler from `main.py` as a state-passing
function `DBState → args → DBState × result`.

`database.py` (the module providing `db` and `create_document`) is not part
of the supplied sources; where its behaviour decides a property it is
modelled from the specification, with a doc comment saying so.

Timestamps (`datetime.utcnow()`) are modelled as a `Nat` parameter passed to
the handler: each request observes one current time, and later requests
observe strictly larger times.
-/

/-- `CourseCategory` schema from `schemas.py`: slug, title, blurb, optional
highlights / color / accent. -/
structure CourseCategory where
  slug : String
  title : String
  blurb : String
  highlights : Option (List String)
  color : Option String
  accent : Option String
deriving DecidableEq, Repr

/-- `Staff` schema from `schemas.py`: name, role, optional bio / avatar /
socials (a platform-to-URL mapping, embedded as an association list). -/
structure Staff where
  name : String
  role : String
  bio : Option String
  avatar : Option String
  socials : Option (List (String × String))
deriving DecidableEq, Repr

/-- `ContactMessage` schema from `schemas.py` (the validated payload):
name, email, message, optional topic. -/
structure ContactMessage where
  name : String
  email : String
  message : String
  topic : Option String
deriving DecidableEq, Repr

/-- `Subscription` request schema from `schemas.py`: email plus optional
name and interests. -/
structure Subscription where
  email : String
  name : Option String
  interests : Option (List String)
deriving DecidableEq, Repr

/-- A persisted document of the `subscription` collection: the request
fields plus the server-assigned `created_at` / `updated_at` timestamps. -/
structure SubscriptionRecord where
  email : String
  name : Option String
  interests : Option (List String)
  created_at : Nat
  updated_at : Nat
deriving DecidableEq, Repr

/-- The document store: the four collections used by `main.py`, each a list
of documents in insertion order (the internal `_id` is never exposed by the
handlers — every read uses the projection `{"_id": 0}` — so it is omitted). -/
structure Store where
  coursecategory : List CourseCategory
  staff : List Staff
  contactmessage : List ContactMessage
  subscription : List SubscriptionRecord
deriving DecidableEq, Repr

/-- The database handle `db` imported from `database`:
`absent` is `db is None` (no database configured);
`ok s` is a connected store with contents `s`;
`failing m` is a connected handle whose every operation raises an exception
with message `m` (the generic store-error case of the handlers). -/
inductive DBState where
  | absent : DBState
  | ok : Store → DBState
  | failing : String → DBState
deriving DecidableEq, Repr

/-- HTTP error as raised by the handlers (`HTTPException(status_code, detail)`). -/
structure HTTPError where
  status : Nat
  detail : String
deriving DecidableEq, Repr

/-- The `MessageResponse` model of `main.py`. -/
structure MessageResponse where
  status : String
  detail : String
deriving DecidableEq, Repr

/-- The category seed catalog hard-coded in `_ensure_categories_seeded`
(`main.py` lines 27–68): five records, in source order. -/
def categoriesSeed : List CourseCategory :=
  [ { slug := "web-development", title := "Web Development",
      blurb := "Build modern, responsive websites and web apps from scratch.",
      highlights := some ["HTML, CSS, JS", "React & Tailwind", "APIs & Auth"],
      color := some "#22c55e", accent := some "#10b981" },
    { slug := "ai-programming", title := "AI Programming",
      blurb := "Learn Python for AI, machine learning, and practical LLM apps.",
      highlights := some ["Python & NumPy", "ML & LLMs", "Model Deployment"],
      color := some "#a855f7", accent := some "#8b5cf6" },
    { slug := "robotics", title := "Robotics",
      blurb := "Program and control robots with sensors, motion, and autonomy.",
      highlights := some ["ROS Basics", "Sensors & Control", "Path Planning"],
      color := some "#0ea5e9", accent := some "#38bdf8" },
    { slug := "drone", title := "Drone Programming",
      blurb := "Build and pilot drones, master flight control and computer vision.",
      highlights := some ["PX4 & MAVSDK", "Stabilization", "Aerial CV"],
      color := some "#22d3ee", accent := some "#06b6d4" },
    { slug := "3d-printing", title := "3D Product & Printing",
      blurb := "Design 3D models and turn ideas into physical prototypes.",
      highlights := some ["Fusion/Blender", "Slicing & Materials", "Rapid Prototyping"],
      color := some "#f59e0b", accent := some "#fbbf24" } ]

/-- The staff seed catalog hard-coded in `_ensure_staff_seeded`
(`main.py` lines 81–103): three records, in source order. -/
def staffSeed : List Staff :=
  [ { name := "Ava Chen", role := "Head of AI",
      bio := some "Leads our AI track with 8+ years in ML and LLM apps.",
      avatar := some "https://i.pravatar.cc/150?img=1",
      socials := some [("twitter", "https://twitter.com/avachen")] },
    { name := "Miguel Torres", role := "Robotics Lead",
      bio := some "ROS expert building autonomous ground and aerial robots.",
      avatar := some "https://i.pravatar.cc/150?img=5",
      socials := some [("github", "https://github.com/miguelt")] },
    { name := "Sara Patel", role := "Web Instructor",
      bio := some "Front-end engineer focused on React and delightful UX.",
      avatar := some "https://i.pravatar.cc/150?img=11",
      socials := some [("linkedin", "https://linkedin.com/in/sarapatel")] } ]

/-- Modelled from the spec: `create_document` lives in `database.py`, which
is not among the supplied sources. Per §4.1 of the spec each seed record is
inserted by "an independent write (not a single atomic batch)" appended to
the named collection; here, the write into `coursecategory`. -/
def create_document_category (s : Store) (d : CourseCategory) : Store :=
  { s with coursecategory := s.coursecategory ++ [d] }

/-- Modelled from the spec: the `create_document` write into `staff`
(see `create_document_category`). -/
def create_document_staff (s : Store) (d : Staff) : Store :=
  { s with staff := s.staff ++ [d] }

/-- Modelled from the spec: the `create_document` write into
`contactmessage` (see `create_document_category`). -/
def create_document_contact (s : Store) (d : ContactMessage) : Store :=
  { s with contactmessage := s.contactmessage ++ [d] }

/-- `_ensure_categories_seeded` (`main.py` lines 23–73): if `db` is `None`
return `[]`; otherwise if `coursecategory` counts zero documents, insert the
five seed records one by one, then return all documents of the collection
(without `_id`). On a raising store the first operation
(`count_documents`) throws, and the exception propagates to the caller. -/
def _ensure_categories_seeded (db : DBState) : DBState × Except String (List CourseCategory) :=
  match db with
  | .absent => (.absent, .ok [])
  | .failing m => (.failing m, .error m)
  | .ok s =>
    if s.coursecategory.length = 0 then
      let s1 := categoriesSeed.foldl create_document_category s
      (.ok s1, .ok s1.coursecategory)
    else
      (.ok s, .ok s.coursecategory)

/-- `_ensure_staff_seeded` (`main.py` lines 76–106): same shape as the
category seeder, over the `staff` collection and its three seed records. -/
def _ensure_staff_seeded (db : DBState) : DBState × Except String (List Staff) :=
  match db with
  | .absent => (.absent, .ok [])
  | .failing m => (.failing m, .error m)
  | .ok s =>
    if s.staff.length = 0 then
      let s1 := staffSeed.foldl create_document_staff s
      (.ok s1, .ok s1.staff)
    else
      (.ok s, .ok s.staff)

/-- `GET /api/categories` (`main.py` lines 123–129): seed-then-list, any
store exception mapped to `HTTPException(500, str(e))`. The returned list
is serialised by the framework as `{items: [...]}`. -/
def list_categories (db : DBState) : DBState × Except HTTPError (List CourseCategory) :=
  match _ensure_categories_seeded db with
  | (db1, .error m) => (db1, .error ⟨500, m⟩)
  | (db1, .ok data) => (db1, .ok data)

/-- `GET /api/staff` (`main.py` lines 146–152): seed-then-list for staff. -/
def staff_list (db : DBState) : DBState × Except HTTPError (List Staff) :=
  match _ensure_staff_seeded db with
  | (db1, .error m) => (db1, .error ⟨500, m⟩)
  | (db1, .ok data) => (db1, .ok data)

/-- `GET /api/categories/{slug}` (`main.py` lines 132–143): trigger seeding,
then `find_one({"slug": slug})` — `None` when `db` is `None` — raising
`HTTPException(404, "Category not found")` when no document matches; the
`except HTTPException: raise` clause re-raises the 404 unchanged, and any
other exception becomes a 500. -/
def category_detail (db : DBState) (slug : String) : DBState × Except HTTPError CourseCategory :=
  match _ensure_categories_seeded db with
  | (db1, .error m) => (db1, .error ⟨500, m⟩)
  | (db1, .ok _) =>
    let doc : Option CourseCategory :=
      match db1 with
      | .ok s => s.coursecategory.find? (fun c => c.slug == slug)
      | _ => none
    match doc with
    | none => (db1, .error ⟨404, "Category not found"⟩)
    | some c => (db1, .ok c)

/-- `POST /api/contact` (`main.py` lines 155–161): `create_document` of the
validated message, catching any exception as a 500. Modelled from the spec
where `database.py` is missing: the write is a plain insert (§4.4 "pure
insert, no dedup"), it fails when no database is configured (§7: writes
"fail outright" on store-unavailable), and a raising store surfaces its
message. -/
def contact (db : DBState) (message : ContactMessage) : DBState × Except HTTPError MessageResponse :=
  match db with
  | .absent => (.absent, .error ⟨500, "Database not available"⟩)
  | .failing m => (.failing m, .error ⟨500, m⟩)
  | .ok s => (.ok (create_document_contact s message),
              .ok ⟨"ok", "Message received. We'll be in touch!"⟩)

/-- The `$set` part of the subscribe upsert (`main.py` lines 170–174):
`{**body.model_dump(), "updated_at": now}` — every field of the request
body (email, name, interests) plus `updated_at`; `created_at` is only in
`$setOnInsert` and is untouched on the update path. -/
def applySet (r : SubscriptionRecord) (body : Subscription) (t : Nat) : SubscriptionRecord :=
  { r with email := body.email, name := body.name,
           interests := body.interests, updated_at := t }

/-- `update_one({"email": body.email}, {"$set": ..., "$setOnInsert":
{"created_at": now}}, upsert=True)` on the `subscription` collection:
the first document matching the filter is updated with `$set`; when none
matches, a new document is inserted from the filter equality, the `$set`
fields and the `$setOnInsert` fields, so both timestamps are `t`. -/
def updateOneSubscription (l : List SubscriptionRecord) (body : Subscription) (t : Nat) :
    List SubscriptionRecord :=
  match l with
  | [] => [⟨body.email, body.name, body.interests, t, t⟩]
  | r :: rs =>
    if r.email == body.email then
      applySet r body t :: rs
    else
      r :: updateOneSubscription rs body t

/-- `POST /api/subscribe` (`main.py` lines 164–178): raises
`Exception("Database not available")` when `db` is `None` (before any store
operation), otherwise performs the single upsert keyed by email; every
exception is caught and mapped to `HTTPException(500, str(e))`. `t` is the
`datetime.utcnow()` observed by this request. -/
def subscribe (db : DBState) (body : Subscription) (t : Nat) : DBState × Except HTTPError MessageResponse :=
  match db with
  | .absent => (.absent, .error ⟨500, "Database not available"⟩)
  | .failing m => (.failing m, .error ⟨500, m⟩)
  | .ok s => (.ok { s with subscription := updateOneSubscription s.subscription body t },
              .ok ⟨"ok", "Subscribed successfully"⟩)

/-- A sequence of `subscribe` requests, threading the database state. -/
def runSubscribes (db : DBState) (calls : List (Subscription × Nat)) : DBState :=
  calls.foldl (fun d c => (subscribe d c.1 c.2).1) db

/-- The number of documents of the `subscription` collection whose `email`
equals `e`. -/
def countEmail (e : String) (l : List SubscriptionRecord) : Nat :=
  (l.filter (fun r => r.email == e)).length

/-- Modelled from the spec: pydantic's `EmailStr` check is performed by an
external library ("validation is an external collaborator's
responsibility", §4.3); embedded as: one `@` separating a nonempty local
part from a nonempty domain that contains a `.`. -/
def isValidEmail (e : String) : Bool :=
  let cs := e.data
  let localPart := cs.takeWhile (fun c => c != '@')
  match cs.dropWhile (fun c => c != '@') with
  | [] => false
  | _ :: domain =>
    decide (0 < localPart.length) && decide (0 < domain.length) &&
    !(domain.contains '@') && domain.contains '.'

/-- The validation pydantic applies to a `ContactMessage` body
(`schemas.py` lines 43–47) before the handler runs: `name` of length ≥ 2,
a valid email, `message` of length between 10 and 2000. -/
def validateContactMessage (name email message : String) (topic : Option String) :
    Option ContactMessage :=
  if 2 ≤ name.length ∧ isValidEmail email = true ∧
     10 ≤ message.length ∧ message.length ≤ 2000 then
    some ⟨name, email, message, topic⟩
  else
    none

/-- Python's character slice `m[:n]` (used by `/test` as `str(e)[:50]`):
the first `n` characters of the string. -/
def strTrunc (m : String) (n : Nat) : String := ⟨m.data.take n⟩

/-- The diagnostic object built by `GET /test` (`main.py` lines 181–205). -/
structure TestResponse where
  backend : String
  database : String
  database_url : Option String
  database_name : Option String
  connection_status : String
  collections : List String
deriving DecidableEq, Repr

/-- `list_collection_names()` of the connected store: the collections that
exist, i.e. the ones a document has been inserted into (a document store
creates a collection on first write). -/
def Store.listCollectionNames (s : Store) : List String :=
  (if s.coursecategory.length ≠ 0 then ["coursecategory"] else []) ++
  (if s.staff.length ≠ 0 then ["staff"] else []) ++
  (if s.contactmessage.length ≠ 0 then ["contactmessage"] else []) ++
  (if s.subscription.length ≠ 0 then ["subscription"] else [])

/-- `GET /test` (`main.py` lines 181–205): starts from a default "not
available" response; when `db` is not `None`, marks the database available,
reports whether `DATABASE_URL` / `DATABASE_NAME` are set (`urlSet`,
`nameSet`), and tries `list_collection_names()`, keeping the first 10 names
on success and, on a raising store, overwriting the `database` field with
the exception message truncated to 50 characters. It returns the response
object in every case. -/
def test_database (db : DBState) (urlSet nameSet : Bool) : TestResponse :=
  match db with
  | .absent =>
    { backend := "✅ Running", database := "❌ Not Available",
      database_url := none, database_name := none,
      connection_status := "Not Connected", collections := [] }
  | .failing m =>
    { backend := "✅ Running",
      database := "⚠️  Connected but Error: " ++ strTrunc m 50,
      database_url := some (if urlSet then "✅ Set" else "❌ Not Set"),
      database_name := some (if nameSet then "✅ Set" else "❌ Not Set"),
      connection_status := "Connected", collections := [] }
  | .ok s =>
    { backend := "✅ Running", database := "✅ Connected & Working",
      database_url := some (if urlSet then "✅ Set" else "❌ Not Set"),
      database_name := some (if nameSet then "✅ Set" else "❌ Not Set"),
      connection_status := "Connected",
      collections := s.listCollectionNames.take 10 }

/-! ## Helper lemmas -/

/-- Inserting a list of category documents one by one appends it to the
collection and touches nothing else. -/
theorem foldl_create_document_category (l : List CourseCategory) (s : Store) :
    l.foldl create_document_category s = { s with coursecategory := s.coursecategory ++ l } := by
  induction l generalizing s with
  | nil => simp
  | cons d l ih =>
    simp [List.foldl_cons, ih, create_document_category]

/-- Inserting a list of staff documents one by one appends it to the
collection and touches nothing else. -/
theorem foldl_create_document_staff (l : List Staff) (s : Store) :
    l.foldl create_document_staff s = { s with staff := s.staff ++ l } := by
  induction l generalizing s with
  | nil => simp
  | cons d l ih =>
    simp [List.foldl_cons, ih, create_document_staff]

/-! ## Claims -/

/-- Claim C2: for a store whose `coursecategory` collection is empty the
first `GET /api/categories` inserts exactly the five seed-catalog records
and returns exactly those five; a second call returns the same five
records and leaves the state unchanged. Likewise for `GET /api/staff` with
its three seed records. -/
theorem claim_C2_first_list_seeds (s u : Store)
    (hc : s.coursecategory = []) (hu : u.staff = []) :
    list_categories (.ok s) = (.ok { s with coursecategory := categoriesSeed }, .ok categoriesSeed) ∧
    categoriesSeed.length = 5 ∧
    list_categories (.ok { s with coursecategory := categoriesSeed })
      = (.ok { s with coursecategory := categoriesSeed }, .ok categoriesSeed) ∧
    staff_list (.ok u) = (.ok { u with staff := staffSeed }, .ok staffSeed) ∧
    staffSeed.length = 3 ∧
    staff_list (.ok { u with staff := staffSeed })
      = (.ok { u with staff := staffSeed }, .ok staffSeed) := by
  refine ⟨?_, rfl, ?_, ?_, rfl, ?_⟩
  · simp [list_categories, _ensure_categories_seeded, hc,
      foldl_create_document_category]
  · simp [list_categories, _ensure_categories_seeded, categoriesSeed]
  · simp [staff_list, _ensure_staff_seeded, hu, foldl_create_document_staff]
  · simp [staff_list, _ensure_staff_seeded, staffSeed]

/-- Witness for C2 at the empty store. -/
theorem claim_C2_first_list_seeds_witness :
    list_categories (.ok ⟨[], [], [], []⟩)
      = (.ok ⟨categoriesSeed, [], [], []⟩, .ok categoriesSeed) ∧
    categoriesSeed.length = 5 ∧
    list_categories (.ok ⟨categoriesSeed, [], [], []⟩)
      = (.ok ⟨categoriesSeed, [], [], []⟩, .ok categoriesSeed) ∧
    staff_list (.ok ⟨[], [], [], []⟩)
      = (.ok ⟨[], staffSeed, [], []⟩, .ok staffSeed) ∧
    staffSeed.length = 3 ∧
    staff_list (.ok ⟨[], staffSeed, [], []⟩)
      = (.ok ⟨[], staffSeed, [], []⟩, .ok staffSeed) :=
  claim_C2_first_list_seeds ⟨[], [], [], []⟩ ⟨[], [], [], []⟩ rfl rfl

/-- Claim C3: when the collection already holds at least one record, the
seeder performs no insert — the store state is returned unchanged — and
returns the current contents. Both for categories and for staff. -/
theorem claim_C3_seeding_frame (s u : Store)
    (hc : s.coursecategory ≠ []) (hu : u.staff ≠ []) :
    _ensure_categories_seeded (.ok s) = (.ok s, .ok s.coursecategory) ∧
    _ensure_staff_seeded (.ok u) = (.ok u, .ok u.staff) := by
  constructor
  · simp [_ensure_categories_seeded, List.length_eq_zero, hc]
  · simp [_ensure_staff_seeded, List.length_eq_zero, hu]

/-- Witness for C3 at stores already holding one record each. -/
theorem claim_C3_seeding_frame_witness :
    _ensure_categories_seeded (.ok ⟨[⟨"x", "X", "b", none, none, none⟩], [], [], []⟩)
      = (.ok ⟨[⟨"x", "X", "b", none, none, none⟩], [], [], []⟩,
         .ok [⟨"x", "X", "b", none, none, none⟩]) ∧
    _ensure_staff_seeded (.ok ⟨[], [⟨"A B", "r", none, none, none⟩], [], []⟩)
      = (.ok ⟨[], [⟨"A B", "r", none, none, none⟩], [], []⟩,
         .ok [⟨"A B", "r", none, none, none⟩]) :=
  claim_C3_seeding_frame ⟨[⟨"x", "X", "b", none, none, none⟩], [], [], []⟩
    ⟨[], [⟨"A B", "r", none, none, none⟩], [], []⟩
    (by simp) (by simp)

/-- Claim C5: with no database configured (`db is None`), the category and
staff list endpoints return the empty item list (serialised `{items: []}`)
rather than an error. -/
theorem claim_C5_absent_store_empty_lists :
    list_categories .absent = (.absent, .ok []) ∧
    staff_list .absent = (.absent, .ok []) :=
  ⟨rfl, rfl⟩

/-- Claim C7: when the store handle is absent, `POST /api/subscribe` fails
before any write — the database state is unchanged — with the fixed
"Database not available" detail, whereas a store whose write raises
produces a 500 carrying that store's own message: the two failure signals
carry different details. -/
theorem claim_C7_subscribe_unavailable (body : Subscription) (t : Nat) (m : String) :
    subscribe .absent body t = (.absent, .error ⟨500, "Database not available"⟩) ∧
    subscribe (.failing m) body t = (.failing m, .error ⟨500, m⟩) :=
  ⟨rfl, rfl⟩

/-- Claim C9: with no database configured, `GET /api/categories/{slug}`
returns 404 "Category not found" for every slug, including seeded ones,
because `find_one` is skipped (`... if db else None`) and the `None`
document triggers the 404 branch. -/
theorem claim_C9_absent_store_detail_404 (slug : String) :
    category_detail .absent slug = (.absent, .error ⟨404, "Category not found"⟩) :=
  rfl

/-- With an empty `coursecategory` collection, the seeder installs exactly
the seed catalog. -/
theorem ensure_categories_on_empty (s : Store) (hc : s.coursecategory = []) :
    _ensure_categories_seeded (.ok s)
      = (.ok { s with coursecategory := categoriesSeed }, .ok categoriesSeed) := by
  simp [_ensure_categories_seeded, hc, foldl_create_document_category]

/-- Claim C4: after seeding (triggered by the detail endpoint itself),
lookup of a slug from the seed catalog returns that record; lookup of a
slug matching no record returns the 404 "Category not found" signal; and a
store whose operations raise yields a 500 with the store's message — the
two signals differ in status code. -/
theorem claim_C4_category_detail (s : Store) (c : CourseCategory) (slug m : String)
    (hc : s.coursecategory = [])
    (hmem : c ∈ categoriesSeed)
    (hnone : categoriesSeed.find? (fun x => x.slug == slug) = none) :
    category_detail (.ok s) c.slug
      = (.ok { s with coursecategory := categoriesSeed }, .ok c) ∧
    category_detail (.ok s) slug
      = (.ok { s with coursecategory := categoriesSeed }, .error ⟨404, "Category not found"⟩) ∧
    category_detail (.failing m) slug = (.failing m, .error ⟨500, m⟩) := by
  have hup := ensure_categories_on_empty s hc
  refine ⟨?_, ?_, rfl⟩
  · have hfind : categoriesSeed.find? (fun x => x.slug == c.slug) = some c := by
      simp only [categoriesSeed, List.mem_cons, List.not_mem_nil, or_false] at hmem
      rcases hmem with rfl | rfl | rfl | rfl | rfl <;> decide
    simp [category_detail, hup, hfind]
  · simp [category_detail, hup, hnone]

/-- Witness for C4: the "web-development" seed slug is found, an unknown
slug gives 404, a raising store gives 500. -/
theorem claim_C4_category_detail_witness :
    category_detail (.ok ⟨[], [], [], []⟩) "web-development"
      = (.ok ⟨categoriesSeed, [], [], []⟩,
         .ok { slug := "web-development", title := "Web Development",
               blurb := "Build modern, responsive websites and web apps from scratch.",
               highlights := some ["HTML, CSS, JS", "React & Tailwind", "APIs & Auth"],
               color := some "#22c55e", accent := some "#10b981" }) ∧
    category_detail (.ok ⟨[], [], [], []⟩) "no-such-slug"
      = (.ok ⟨categoriesSeed, [], [], []⟩, .error ⟨404, "Category not found"⟩) ∧
    category_detail (.failing "boom") "no-such-slug"
      = (.failing "boom", .error ⟨500, "boom"⟩) :=
  claim_C4_category_detail ⟨[], [], [], []⟩
    { slug := "web-development", title := "Web Development",
      blurb := "Build modern, responsive websites and web apps from scratch.",
      highlights := some ["HTML, CSS, JS", "React & Tailwind", "APIs & Auth"],
      color := some "#22c55e", accent := some "#10b981" }
    "no-such-slug" "boom" rfl (by decide) (by decide)

/-- Claim C6: a contact body with a 9-character message fails validation;
with a 10-character message (name of length ≥ 2, valid email) it validates
and the handler appends a fresh record to `contactmessage` — even when an
identical record is already stored, the collection grows by one (pure
insert, no dedup). -/
theorem claim_C6_contact_validation (s : Store) (n e msg9 msg10 : String) (t : Option String)
    (h9 : msg9.length = 9) (h10 : msg10.length = 10)
    (hn : 2 ≤ n.length) (he : isValidEmail e = true) :
    validateContactMessage n e msg9 t = none ∧
    validateContactMessage n e msg10 t = some ⟨n, e, msg10, t⟩ ∧
    contact (.ok s) ⟨n, e, msg10, t⟩
      = (.ok { s with contactmessage := s.contactmessage ++ [⟨n, e, msg10, t⟩] },
         .ok (⟨"ok", "Message received. We'll be in touch!"⟩ : MessageResponse)) ∧
    (s.contactmessage ++ ([⟨n, e, msg10, t⟩] : List ContactMessage)).length
      = s.contactmessage.length + 1 := by
  refine ⟨?_, ?_, ?_, by simp⟩
  · simp [validateContactMessage, h9]
  · simp [validateContactMessage, h10, hn, he]
  · simp [contact, create_document_contact]

/-- Witness for C6: the 10-character message is stored a second time even
though an identical record is already present. -/
theorem claim_C6_contact_validation_witness :
    validateContactMessage "Jo" "jo@example.com" "123456789" none = none ∧
    validateContactMessage "Jo" "jo@example.com" "1234567890" none
      = some ⟨"Jo", "jo@example.com", "1234567890", none⟩ ∧
    contact (.ok (⟨[], [], [⟨"Jo", "jo@example.com", "1234567890", none⟩], []⟩ : Store))
        ⟨"Jo", "jo@example.com", "1234567890", none⟩
      = (.ok (⟨[], [], [⟨"Jo", "jo@example.com", "1234567890", none⟩,
                        ⟨"Jo", "jo@example.com", "1234567890", none⟩], []⟩ : Store),
         .ok (⟨"ok", "Message received. We'll be in touch!"⟩ : MessageResponse)) ∧
    (([⟨"Jo", "jo@example.com", "1234567890", none⟩] : List ContactMessage) ++
      ([⟨"Jo", "jo@example.com", "1234567890", none⟩] : List ContactMessage)).length
      = ([⟨"Jo", "jo@example.com", "1234567890", none⟩] : List ContactMessage).length + 1 :=
  claim_C6_contact_validation
    (⟨[], [], [⟨"Jo", "jo@example.com", "1234567890", none⟩], []⟩ : Store)
    "Jo" "jo@example.com" "123456789" "1234567890" none
    (by decide) (by decide) (by decide) (by decide)

/-- Claim C8: `GET /test` is a total function of the store state — it never
raises. On every state it reports the backend running with at most ten
collection names; the absent store yields the default "Not Available"
object, a connected store reports "Connected & Working", and a store whose
`list_collection_names` raises gets its message truncated to at most 50
characters inside the `database` field. -/
theorem claim_C8_test_never_errors (db : DBState) (u n : Bool) (s : Store) (m : String) :
    (test_database db u n).backend = "✅ Running" ∧
    (test_database db u n).collections.length ≤ 10 ∧
    test_database .absent u n
      = ⟨"✅ Running", "❌ Not Available", none, none, "Not Connected", []⟩ ∧
    (test_database (.ok s) u n).database = "✅ Connected & Working" ∧
    (test_database (.failing m) u n).database
      = "⚠️  Connected but Error: " ++ strTrunc m 50 ∧
    (strTrunc m 50).length ≤ 50 := by
  refine ⟨?_, ?_, rfl, rfl, rfl, ?_⟩
  · cases db <;> rfl
  · cases db with
    | absent => simp [test_database]
    | failing m => simp [test_database]
    | ok s =>
      simp only [test_database]
      rw [List.length_take]
      omega
  · have h : (strTrunc m 50).length = (m.data.take 50).length := rfl
    rw [h, List.length_take]
    omega

/-- No document matches the email filter iff the email count is zero. -/
theorem countEmail_eq_zero (e : String) (l : List SubscriptionRecord) :
    countEmail e l = 0 ↔ ∀ r ∈ l, (r.email == e) = false := by
  simp [countEmail, List.length_eq_zero, List.filter_eq_nil_iff]

/-- When no document matches the filter, the upsert inserts a fresh
document (filter field + `$set` fields + `$setOnInsert` fields) at the end
of the collection. -/
theorem updateOne_no_match (l : List SubscriptionRecord) (body : Subscription) (t : Nat)
    (h : ∀ r ∈ l, (r.email == body.email) = false) :
    updateOneSubscription l body t
      = l ++ [⟨body.email, body.name, body.interests, t, t⟩] := by
  induction l with
  | nil => rfl
  | cons r rs ih =>
    have hr := h r (List.mem_cons_self ..)
    simp [updateOneSubscription, hr,
      ih (fun x hx => h x (List.mem_cons_of_mem _ hx))]

/-- When the first matching document is `r`, the upsert applies `$set` to
`r` and leaves every other document unchanged. -/
theorem updateOne_prefix_match (l1 l2 : List SubscriptionRecord) (r : SubscriptionRecord)
    (body : Subscription) (t : Nat)
    (h1 : ∀ x ∈ l1, (x.email == body.email) = false)
    (hr : (r.email == body.email) = true) :
    updateOneSubscription (l1 ++ r :: l2) body t = l1 ++ applySet r body t :: l2 := by
  induction l1 with
  | nil => simp [updateOneSubscription, hr]
  | cons a l1 ih =>
    have ha := h1 a (List.mem_cons_self ..)
    simp [updateOneSubscription, ha,
      ih (fun x hx => h1 x (List.mem_cons_of_mem _ hx))]

/-- An upsert against a collection without the email leaves exactly one
matching document. -/
theorem countEmail_updateOne_of_zero (l : List SubscriptionRecord) (body : Subscription)
    (t : Nat) (h0 : countEmail body.email l = 0) :
    countEmail body.email (updateOneSubscription l body t) = 1 := by
  have h := (countEmail_eq_zero body.email l).1 h0
  rw [updateOne_no_match l body t h]
  have hfil : l.filter (fun r => r.email == body.email) = [] :=
    List.filter_eq_nil_iff.2 (fun r hr => by simp [h r hr])
  simp [countEmail, List.filter_append, hfil]

/-- An upsert against a collection holding exactly one matching document
still leaves exactly one. -/
theorem countEmail_updateOne_of_one (l : List SubscriptionRecord) (body : Subscription)
    (t : Nat) (h1 : countEmail body.email l = 1) :
    countEmail body.email (updateOneSubscription l body t) = 1 := by
  induction l with
  | nil => simp [countEmail] at h1
  | cons r rs ih =>
    by_cases hr : (r.email == body.email) = true
    · have hset : ((applySet r body t).email == body.email) = true := by
        simp [applySet]
      simp only [countEmail, List.filter_cons, hr, if_true, List.length_cons] at h1
      simp only [updateOneSubscription, hr, if_true, countEmail, List.filter_cons,
        hset, List.length_cons]
      omega
    · have hr' : (r.email == body.email) = false := by
        simp only [Bool.not_eq_true] at hr; exact hr
      simp only [countEmail, List.filter_cons, hr', Bool.false_eq_true, if_false] at h1
      simp only [updateOneSubscription, hr', Bool.false_eq_true, if_false, countEmail,
        List.filter_cons]
      exact ih h1

/-- Running a batch of subscribe requests against a connected store keeps
the store connected and, when every request carries email `e` and exactly
one document matches `e`, preserves that count. -/
theorem runSubscribes_preserves_one (e : String) (calls : List (Subscription × Nat)) :
    ∀ s : Store, countEmail e s.subscription = 1 → (∀ c ∈ calls, c.1.email = e) →
    ∃ s2, runSubscribes (.ok s) calls = .ok s2 ∧ countEmail e s2.subscription = 1 := by
  induction calls with
  | nil => exact fun s h _ => ⟨s, rfl, h⟩
  | cons c rest ih =>
    intro s h hall
    have hc : c.1.email = e := hall c (List.mem_cons_self ..)
    have h1 : countEmail e (updateOneSubscription s.subscription c.1 c.2) = 1 := by
      rw [← hc] at h ⊢
      exact countEmail_updateOne_of_one s.subscription c.1 c.2 h
    exact ih { s with subscription := updateOneSubscription s.subscription c.1 c.2 }
      h1 (fun x hx => hall x (List.mem_cons_of_mem _ hx))

/-- Claim C1: starting from a store without a subscription for email `e`,
any nonempty sequence of subscribe requests for `e` leaves exactly one
document for `e`; in the two-submission scenario with different
name/interests, the surviving document carries the second submission's
fields, keeps the `created_at` observed after the first call (`t1`), and
its `updated_at` advances from `t1` to `t2`. -/
theorem claim_C1_subscribe_upsert (s : Store) (e : String)
    (calls : List (Subscription × Nat))
    (n1 n2 : Option String) (i1 i2 : Option (List String)) (t1 t2 : Nat)
    (h0 : countEmail e s.subscription = 0)
    (hne : calls ≠ [])
    (hall : ∀ c ∈ calls, c.1.email = e)
    (ht : t1 < t2) :
    (∃ s2, runSubscribes (.ok s) calls = .ok s2 ∧ countEmail e s2.subscription = 1) ∧
    (∃ s1 s2,
      subscribe (.ok s) ⟨e, n1, i1⟩ t1
        = (.ok s1, .ok (⟨"ok", "Subscribed successfully"⟩ : MessageResponse)) ∧
      s1.subscription.filter (fun r => r.email == e)
        = [⟨e, n1, i1, t1, t1⟩] ∧
      subscribe (.ok s1) ⟨e, n2, i2⟩ t2
        = (.ok s2, .ok (⟨"ok", "Subscribed successfully"⟩ : MessageResponse)) ∧
      s2.subscription.filter (fun r => r.email == e)
        = [⟨e, n2, i2, t1, t2⟩] ∧
      (⟨e, n2, i2, t1, t2⟩ : SubscriptionRecord).created_at = t1 ∧
      (⟨e, n2, i2, t1, t2⟩ : SubscriptionRecord).updated_at = t2 ∧
      t1 < t2) := by
  have hnm : ∀ r ∈ s.subscription, (r.email == e) = false :=
    (countEmail_eq_zero e s.subscription).1 h0
  have hfil : s.subscription.filter (fun r => r.email == e) = [] :=
    List.filter_eq_nil_iff.2 (fun r hr => by simp [hnm r hr])
  constructor
  · match calls, hne with
    | c :: rest, _ =>
      have hc : c.1.email = e := hall c (List.mem_cons_self ..)
      have h1 : countEmail e (updateOneSubscription s.subscription c.1 c.2) = 1 := by
        rw [← hc] at h0 ⊢
        exact countEmail_updateOne_of_zero s.subscription c.1 c.2 h0
      exact runSubscribes_preserves_one e rest
        { s with subscription := updateOneSubscription s.subscription c.1 c.2 }
        h1 (fun x hx => hall x (List.mem_cons_of_mem _ hx))
  · refine ⟨{ s with subscription := s.subscription ++ [⟨e, n1, i1, t1, t1⟩] },
           { s with subscription := s.subscription ++ [⟨e, n2, i2, t1, t2⟩] },
           ?_, ?_, ?_, ?_, rfl, rfl, ht⟩
    · have := updateOne_no_match s.subscription ⟨e, n1, i1⟩ t1 hnm
      simp [subscribe, this]
    · simp [List.filter_append, hfil]
    · have hu := updateOne_prefix_match s.subscription []
        ⟨e, n1, i1, t1, t1⟩ ⟨e, n2, i2⟩ t2 hnm (by simp)
      simp only [subscribe, hu]
      rfl
    · simp [List.filter_append, hfil]

/-- Witness for C1: one subscribe call to the empty store, then the
two-submission scenario with changed name/interests at times 1 and 2. -/
theorem claim_C1_subscribe_upsert_witness :
    (∃ s2, runSubscribes (.ok (⟨[], [], [], []⟩ : Store))
        [(⟨"a@b.co", none, none⟩, 5)] = .ok s2 ∧
      countEmail "a@b.co" s2.subscription = 1) ∧
    (∃ s1 s2,
      subscribe (.ok (⟨[], [], [], []⟩ : Store)) ⟨"a@b.co", some "Ann", some ["ai"]⟩ 1
        = (.ok s1, .ok (⟨"ok", "Subscribed successfully"⟩ : MessageResponse)) ∧
      s1.subscription.filter (fun r => r.email == "a@b.co")
        = [⟨"a@b.co", some "Ann", some ["ai"], 1, 1⟩] ∧
      subscribe (.ok s1) ⟨"a@b.co", some "Bea", none⟩ 2
        = (.ok s2, .ok (⟨"ok", "Subscribed successfully"⟩ : MessageResponse)) ∧
      s2.subscription.filter (fun r => r.email == "a@b.co")
        = [⟨"a@b.co", some "Bea", none, 1, 2⟩] ∧
      (⟨"a@b.co", some "Bea", none, 1, 2⟩ : SubscriptionRecord).created_at = 1 ∧
      (⟨"a@b.co", some "Bea", none, 1, 2⟩ : SubscriptionRecord).updated_at = 2 ∧
      1 < 2) :=
  claim_C1_subscribe_upsert ⟨[], [], [], []⟩ "a@b.co"
    [(⟨"a@b.co", none, none⟩, 5)]
    (some "Ann") (some "Bea") (some ["ai"]) none 1 2
    (by decide) (by decide) (by decide) (by decide)

/-- Claim C10: the upsert's `$set` carries every field of the request body,
so a repeat submission replaces the stored name and interests with exactly
the submitted values — omitted optional fields (serialised as `None` by
`model_dump`) overwrite the previously stored values with null, while
`created_at` is preserved and `updated_at` is set to the request time. -/
theorem claim_C10_subscribe_full_replace (s : Store) (l1 l2 : List SubscriptionRecord)
    (r : SubscriptionRecord) (body : Subscription) (t : Nat)
    (hs : s.subscription = l1 ++ r :: l2)
    (h1 : ∀ x ∈ l1, (x.email == body.email) = false)
    (hr : r.email = body.email) :
    subscribe (.ok s) body t
      = (.ok { s with subscription := l1 ++ applySet r body t :: l2 },
         .ok (⟨"ok", "Subscribed successfully"⟩ : MessageResponse)) ∧
    (applySet r body t).name = body.name ∧
    (applySet r body t).interests = body.interests ∧
    (applySet r body t).created_at = r.created_at ∧
    (applySet r body t).updated_at = t := by
  have hu := updateOne_prefix_match l1 l2 r body t h1 (by simp [hr])
  refine ⟨?_, rfl, rfl, rfl, rfl⟩
  simp [subscribe, hs, hu]

/-- Witness for C10: a repeat submission for a stored record with
`name = some "Ada"`, `interests = some ["ml"]` that omits both fields
overwrites them with null, keeping `created_at`. -/
theorem claim_C10_subscribe_full_replace_witness :
    subscribe (.ok (⟨[], [], [], [⟨"a@b.co", some "Ada", some ["ml"], 1, 1⟩]⟩ : Store))
        ⟨"a@b.co", none, none⟩ 2
      = (.ok (⟨[], [], [], [⟨"a@b.co", none, none, 1, 2⟩]⟩ : Store),
         .ok (⟨"ok", "Subscribed successfully"⟩ : MessageResponse)) ∧
    (applySet ⟨"a@b.co", some "Ada", some ["ml"], 1, 1⟩ ⟨"a@b.co", none, none⟩ 2).name
      = none ∧
    (applySet ⟨"a@b.co", some "Ada", some ["ml"], 1, 1⟩ ⟨"a@b.co", none, none⟩ 2).interests
      = none ∧
    (applySet ⟨"a@b.co", some "Ada", some ["ml"], 1, 1⟩ ⟨"a@b.co", none, none⟩ 2).created_at
      = 1 ∧
    (applySet ⟨"a@b.co", some "Ada", some ["ml"], 1, 1⟩ ⟨"a@b.co", none, none⟩ 2).updated_at
      = 2 :=
  claim_C10_subscribe_full_replace
    ⟨[], [], [], [⟨"a@b.co", some "Ada", some ["ml"], 1, 1⟩]⟩
    [] [] ⟨"a@b.co", some "Ada", some ["ml"], 1, 1⟩ ⟨"a@b.co", none, none⟩ 2
    rfl (by simp) rfl
